import Mathlib

/-!
Verification development for the POSIX terminal backend (`src/tty/unix.rs`) of a
line-editing library.  The Rust code is shallowly embedded: the stdin byte/char
stream is a `List Char` of decoded codepoints, syscall-level effects (termios
attribute get/set, readiness poll, SIGWINCH flag) are made explicit as state
passing and traces, and fallible operations return `Except`.
-/

set_option maxRecDepth 4096

namespace Rustyline

/-- Errors of the embedded reader/terminal operations, mirroring
`::error::ReadlineError` as used in `tty/unix.rs`: end-of-stream, and
OS-level errors carrying an errno / io error code. -/
inductive RError where
  | eof
  | os (errno : Nat)
deriving DecidableEq, Repr

/-- Named keys.  Mirrors `consts::Key` as used by `tty/unix.rs`:
a character key plus the navigation keys, Esc and Unknown. -/
inductive Key where
  | Char (c : Char)
  | Up | Down | Left | Right
  | Home | End | PageUp | PageDown
  | Delete | Esc | Unknown
deriving DecidableEq, Repr

/-- A key event: a key together with ctrl/alt modifier flags.
Mirrors `consts::KeyPress`. -/
structure KeyPress where
  key : Key
  ctrl : Bool
  alt : Bool
deriving DecidableEq, Repr

/-- The `key!` macro: a key with no modifier. -/
def key (k : Key) : KeyPress := ⟨k, false, false⟩

/-- The `ctrl!` macro on a named key. -/
def ctrl (k : Key) : KeyPress := ⟨k, true, false⟩

/-- The `alt!` macro on a named key. -/
def alt (k : Key) : KeyPress := ⟨k, false, true⟩

/-- The `alt!` macro on a character, as in `alt!('\x7f')`. -/
def altChar (c : Char) : KeyPress := ⟨.Char c, false, true⟩

/-- The escape byte 0x1B. -/
def escChar : Char := '\x1b'

/-- Modelled from the spec: `consts::char_to_key_press` lives in `src/consts.rs`,
which is not among the provided sources.  Spec base mapping (§4.3): a codepoint in
the control range 0x00–0x1F other than 0x1B, or the delete byte 0x7F, maps to its
conventional ctrl-modified letter key; 0x1B is special-cased to Esc; anything else
maps to itself with no modifier. -/
def char_to_key_press (c : Char) : KeyPress :=
  if c = escChar then key .Esc
  else if c.toNat < 0x20 ∨ c.toNat = 0x7f then
    ⟨.Char (Char.ofNat (c.toNat ^^^ 0x40)), true, false⟩
  else key (.Char c)

/-- The reader's view of stdin: the stream of decoded codepoints still to be
consumed.  `chars.next()` on `char_iter::Chars<StdinRaw>` yields the next
codepoint, or `None` at end of stream; `PosixRawReader::next_char` maps `None`
to `Err(ReadlineError::Eof)`. -/
def next_char (s : List Char) : Except RError (Char × List Char) :=
  match s with
  | [] => .error .eof
  | c :: rest => .ok (c, rest)

/-- `PosixRawReader::escape_sequence`: the nested match over the codepoints
following a recognised 0x1B, translated arm by arm from `tty/unix.rs` lines
104–191.  Returns the decoded key event together with the unconsumed remainder
of the stream. -/
def escape_sequence (s : List Char) : Except RError (KeyPress × List Char) :=
  match next_char s with
  | .error e => .error e
  | .ok (c1, s1) =>
    match c1 with
    | '[' =>
      match next_char s1 with
      | .error e => .error e
      | .ok (c2, s2) =>
        match c2 with
        | '1' =>
          match next_char s2 with
          | .error e => .error e
          | .ok (c3, s3) =>
            match c3 with
            | ';' =>
              match next_char s3 with
              | .error e => .error e
              | .ok (c4, s4) =>
                match c4 with
                | '3' =>
                  match next_char s4 with
                  | .error e => .error e
                  | .ok (c5, s5) =>
                    match c5 with
                    | 'A' => .ok (alt .Up, s5)
                    | 'B' => .ok (alt .Down, s5)
                    | 'C' => .ok (alt .Right, s5)
                    | 'D' => .ok (alt .Left, s5)
                    | 'F' => .ok (alt .End, s5)
                    | 'H' => .ok (alt .Home, s5)
                    | _ => .ok (key .Unknown, s5)
                | '5' =>
                  match next_char s4 with
                  | .error e => .error e
                  | .ok (c5, s5) =>
                    match c5 with
                    | 'A' => .ok (ctrl .Up, s5)
                    | 'B' => .ok (ctrl .Down, s5)
                    | 'C' => .ok (ctrl .Right, s5)
                    | 'D' => .ok (ctrl .Left, s5)
                    | 'F' => .ok (ctrl .End, s5)
                    | 'H' => .ok (ctrl .Home, s5)
                    | _ => .ok (key .Unknown, s5)
                | _ => .ok (key .Unknown, s4)
            | '~' => .ok (key .Home, s3)
            | _ => .ok (key .Unknown, s3)
        | '3' =>
          match next_char s2 with
          | .error e => .error e
          | .ok (c3, s3) =>
            match c3 with
            | '~' => .ok (key .Delete, s3)
            | _ => .ok (key .Unknown, s3)
        | '4' =>
          match next_char s2 with
          | .error e => .error e
          | .ok (c3, s3) =>
            match c3 with
            | '~' => .ok (key .End, s3)
            | _ => .ok (key .Unknown, s3)
        | '5' =>
          match next_char s2 with
          | .error e => .error e
          | .ok (c3, s3) =>
            match c3 with
            | '~' => .ok (key .PageUp, s3)
            | _ => .ok (key .Unknown, s3)
        | '6' =>
          match next_char s2 with
          | .error e => .error e
          | .ok (c3, s3) =>
            match c3 with
            | '~' => .ok (key .PageDown, s3)
            | _ => .ok (key .Unknown, s3)
        | '7' =>
          match next_char s2 with
          | .error e => .error e
          | .ok (c3, s3) =>
            match c3 with
            | '~' => .ok (key .Home, s3)
            | _ => .ok (key .Unknown, s3)
        | '8' =>
          match next_char s2 with
          | .error e => .error e
          | .ok (c3, s3) =>
            match c3 with
            | '~' => .ok (key .End, s3)
            | _ => .ok (key .Unknown, s3)
        | 'A' => .ok (key .Up, s2)
        | 'B' => .ok (key .Down, s2)
        | 'C' => .ok (key .Right, s2)
        | 'D' => .ok (key .Left, s2)
        | 'F' => .ok (key .End, s2)
        | 'H' => .ok (key .Home, s2)
        | _ => .ok (key .Unknown, s2)
    | 'O' =>
      match next_char s1 with
      | .error e => .error e
      | .ok (c2, s2) =>
        match c2 with
        | 'A' => .ok (key .Up, s2)
        | 'B' => .ok (key .Down, s2)
        | 'C' => .ok (key .Right, s2)
        | 'D' => .ok (key .Left, s2)
        | 'F' => .ok (key .End, s2)
        | 'H' => .ok (key .Home, s2)
        | _ => .ok (key .Unknown, s2)
    | '\x08' => .ok (altChar '\x08', s1)
    | '<' => .ok (altChar '<', s1)
    | '>' => .ok (altChar '>', s1)
    | 'b' => .ok (altChar 'B', s1)
    | 'B' => .ok (altChar 'B', s1)
    | 'c' => .ok (altChar 'C', s1)
    | 'C' => .ok (altChar 'C', s1)
    | 'd' => .ok (altChar 'D', s1)
    | 'D' => .ok (altChar 'D', s1)
    | 'f' => .ok (altChar 'F', s1)
    | 'F' => .ok (altChar 'F', s1)
    | 'l' => .ok (altChar 'L', s1)
    | 'L' => .ok (altChar 'L', s1)
    | 't' => .ok (altChar 'T', s1)
    | 'T' => .ok (altChar 'T', s1)
    | 'u' => .ok (altChar 'U', s1)
    | 'U' => .ok (altChar 'U', s1)
    | 'y' => .ok (altChar 'Y', s1)
    | 'Y' => .ok (altChar 'Y', s1)
    | '\x7f' => .ok (altChar '\x7f', s1)
    | _ => .ok (key .Unknown, s1)

/-- Result of `poll::poll(&mut fds, timeout_ms)`: `ok n` is the number of ready
descriptors, `err e` an OS error. -/
inductive PollRes where
  | ok (n : Nat)
  | err (errno : Nat)
deriving DecidableEq, Repr

/-- `RawReader::next_key` for `PosixRawReader` (`tty/unix.rs` lines 195–215).
The readiness poll is an oracle `poll : Int → PollRes` giving the outcome of
`poll::poll` for each timeout; the code consults it at the caller-supplied
`timeout_ms` only when the decoded codepoint maps to the Esc key. -/
def next_key (timeout_ms : Int) (poll : Int → PollRes) (s : List Char) :
    Except RError (KeyPress × List Char) :=
  match next_char s with
  | .error e => .error e
  | .ok (c, s1) =>
    let k := char_to_key_press c
    if k = key .Esc then
      match poll timeout_ms with
      | .ok 0 => .ok (k, s1)
      | .ok _ => escape_sequence s1
      | .err e => .error (.os e)
    else .ok (k, s1)

/-- The two classes of `io::Error` the retry loop distinguishes. -/
inductive IOErrorKind where
  | interrupted
  | other (errno : Nat)
deriving DecidableEq, Repr

/-- Outcome of one underlying `libc::read` call: `ok n` bytes read (`0` at end
of stream), or a failure with an `io::ErrorKind`. -/
inductive ReadOutcome where
  | ok (n : Nat)
  | err (e : IOErrorKind)
deriving DecidableEq, Repr

/-- `StdinRaw::read` (`tty/unix.rs` lines 74–90): loop over successive
`libc::read` outcomes; an error of kind `Interrupted` is retried, any other
error is returned, a success (including 0 bytes) is returned.  The outcomes the
OS would hand back are a finite list; `none` means the loop is still running
when the list is exhausted. -/
def stdin_raw_read (outcomes : List ReadOutcome) : Option (Except IOErrorKind Nat) :=
  match outcomes with
  | [] => none
  | o :: rest =>
    match o with
    | .err e => if e = .interrupted then stdin_raw_read rest else some (.error e)
    | .ok n => some (.ok n)

/-! Termios / raw-mode model.  `tcflag_t` values are natural numbers below
`2^32`; flag constants take their Linux values, matching the `nix::sys::termios`
constants imported by the source.  Attribute get/set syscalls are modelled as
succeeding (no claim concerns their failure paths); what they would do to the
device is recorded in an explicit trace. -/

def BRKINT : Nat := 0x002
def ICRNL : Nat := 0x100
def INPCK : Nat := 0x010
def ISTRIP : Nat := 0x020
def IXON : Nat := 0x400
def CS8 : Nat := 0x030
def ECHO : Nat := 0x008
def ICANON : Nat := 0x002
def IEXTEN : Nat := 0x8000
def ISIG : Nat := 0x001
def VTIME : Nat := 5
def VMIN : Nat := 6
def ENOTTY : Nat := 25

/-- Bitwise complement of a 32-bit `tcflag_t` mask, the `!` in
`raw.c_iflag & !(BRKINT | ...)`. -/
def tcflag_not (m : Nat) : Nat := (2 ^ 32 - 1) ^^^ m

/-- `termios::Termios` as the source uses it: the four flag groups and the
control-character array (indexed by `Nat`, with `VMIN`/`VTIME` the indices the
source writes). -/
structure Termios where
  c_iflag : Nat
  c_oflag : Nat
  c_cflag : Nat
  c_lflag : Nat
  c_cc : Nat → Nat

/-- The options `tcsetattr` can be called with; the source only uses
`TCSADRAIN`. -/
inductive SetAttrWhen where
  | TCSANOW
  | TCSADRAIN
  | TCSAFLUSH
deriving DecidableEq, Repr

/-- One attribute syscall against the device, as recorded in the trace. -/
inductive Syscall where
  | tcgetattr
  | tcsetattr (when_ : SetAttrWhen) (t : Termios)

/-- `PosixTerminal::enable_raw_mode` (`tty/unix.rs` lines 293–314).  Inputs:
the captured `stdin_isatty` capability and the device's current attributes.
Output: the function result (the pre-change snapshot, or an error), the
device's attributes afterwards, and the trace of attribute syscalls issued. -/
def enable_raw_mode (stdin_isatty : Bool) (dev : Termios) :
    Except RError Termios × Termios × List Syscall :=
  if !stdin_isatty then
    (.error (.os ENOTTY), dev, [])
  else
    let original_mode := dev
    let raw : Termios :=
      { original_mode with
        c_iflag := original_mode.c_iflag &&& tcflag_not (BRKINT ||| ICRNL ||| INPCK ||| ISTRIP ||| IXON)
        c_cflag := original_mode.c_cflag ||| CS8
        c_lflag := original_mode.c_lflag &&& tcflag_not (ECHO ||| ICANON ||| IEXTEN ||| ISIG)
        c_cc := Function.update (Function.update original_mode.c_cc VMIN 1) VTIME 0 }
    (.ok original_mode, raw, [.tcgetattr, .tcsetattr .TCSADRAIN raw])

/-- `Mode::disable_raw_mode` (`tty/unix.rs` lines 63–66): re-apply the snapshot
with `TCSADRAIN`. -/
def disable_raw_mode (mode : Termios) (dev : Termios) :
    Except RError Unit × Termios × List Syscall :=
  let _ := dev
  (.ok (), mode, [.tcsetattr .TCSADRAIN mode])

/-! Capability detection and the terminal facade. -/

/-- Unsupported terminals that do not support raw mode (`UNSUPPORTED_TERM`). -/
def UNSUPPORTED_TERM : List String := ["dumb", "cons25", "emacs"]

/-- ASCII lowercasing of one character, as `eq_ignore_ascii_case` compares. -/
def ascii_lower (c : Char) : Char :=
  if 'A' ≤ c ∧ c ≤ 'Z' then Char.ofNat (c.toNat + 32) else c

/-- `str::eq_ignore_ascii_case`. -/
def eq_ignore_ascii_case (a b : String) : Bool :=
  a.data.map ascii_lower == b.data.map ascii_lower

/-- `is_unsupported_term` (`tty/unix.rs` lines 38–51): the `TERM` environment
variable (absent → `none`) matched case-insensitively against the deny-list;
unset gives `false`. -/
def is_unsupported_term (term_env : Option String) : Bool :=
  match term_env with
  | some term => UNSUPPORTED_TERM.any fun iter => eq_ignore_ascii_case iter term
  | none => false

/-- `PosixTerminal`: the captured capability record. -/
structure PosixTerminal where
  unsupported : Bool
  stdin_isatty : Bool
deriving DecidableEq, Repr

/-- `PosixTerminal::new` (`tty/unix.rs` lines 254–263).  Environment inputs:
the `TERM` variable and the `isatty` answers for stdin and stdout.  Returns the
constructed record and whether `install_sigwinch_handler()` was called. -/
def PosixTerminal.new (term_env : Option String) (stdin_tty stdout_tty : Bool) :
    PosixTerminal × Bool :=
  let term : PosixTerminal :=
    { unsupported := is_unsupported_term term_env, stdin_isatty := stdin_tty }
  (term, !term.unsupported && term.stdin_isatty && stdout_tty)

/-! The SIGWINCH flag.  The process-wide `AtomicBool` is the explicit state. -/

/-- `sigwinch_handler` (`tty/unix.rs` lines 238–240): store `true`. -/
def sigwinch_handler (_flag : Bool) : Bool := true

/-- `PosixTerminal::sigwinch` (`tty/unix.rs` lines 322–324):
`compare_and_swap(true, false)` — returns the prior value, and the flag becomes
`false` when it was `true`, else stays as it was. -/
def sigwinch (flag : Bool) : Bool × Bool :=
  (flag, if flag = true then false else flag)

/-- Results of `n` successive `sigwinch` polls starting from a flag state,
threading the flag through; also returns the final flag. -/
def poll_seq : Nat → Bool → List Bool × Bool
  | 0, b => ([], b)
  | n + 1, b =>
    let p := sigwinch b
    let r := poll_seq n p.2
    (p.1 :: r.1, r.2)

/-! Helper lemmas shared by several claims. -/

/-- Characterisation of a successful `next_char`. -/
lemma next_char_eq_ok (s : List Char) (c : Char) (t : List Char) :
    next_char s = .ok (c, t) ↔ s = c :: t := by
  cases s <;> simp [next_char]

/-- Characterisation of a failing `next_char`: only end of stream. -/
lemma next_char_eq_error (s : List Char) (e : RError) :
    next_char s = .error e ↔ s = [] ∧ e = .eof := by
  cases s <;> simp [next_char, eq_comm]

lemma consume1 (a : Char) (t : List Char) :
    ∃ pre : List Char, a :: t = pre ++ t ∧ pre.length ≤ 5 := ⟨[a], rfl, by simp⟩

lemma consume2 (a b : Char) (t : List Char) :
    ∃ pre : List Char, a :: b :: t = pre ++ t ∧ pre.length ≤ 5 := ⟨[a, b], rfl, by simp⟩

lemma consume3 (a b c : Char) (t : List Char) :
    ∃ pre : List Char, a :: b :: c :: t = pre ++ t ∧ pre.length ≤ 5 := ⟨[a, b, c], rfl, by simp⟩

lemma consume4 (a b c d : Char) (t : List Char) :
    ∃ pre : List Char, a :: b :: c :: d :: t = pre ++ t ∧ pre.length ≤ 5 :=
  ⟨[a, b, c, d], rfl, by simp⟩

lemma consume5 (a b c d e : Char) (t : List Char) :
    ∃ pre : List Char, a :: b :: c :: d :: e :: t = pre ++ t ∧ pre.length ≤ 5 :=
  ⟨[a, b, c, d, e], rfl, by simp⟩

/-- A successful `escape_sequence` consumes a prefix of at most five codepoints
and leaves the rest of the stream untouched. -/
theorem escape_sequence_consumes (s : List Char) (r : KeyPress) (s' : List Char)
    (h : escape_sequence s = .ok (r, s')) :
    ∃ pre : List Char, s = pre ++ s' ∧ pre.length ≤ 5 := by
  unfold escape_sequence at h
  repeat' split at h
  all_goals simp_all only [next_char_eq_ok, Except.ok.injEq, Except.error.injEq,
    Prod.mk.injEq, reduceCtorEq]
  all_goals try obtain ⟨h1, h2⟩ := h
  all_goals subst_vars
  all_goals first
    | exact consume1 _ _
    | exact consume2 _ _ _
    | exact consume3 _ _ _ _
    | exact consume4 _ _ _ _ _
    | exact consume5 _ _ _ _ _ _

/-- The only error `escape_sequence` can produce is end of stream: unmatched
continuations are not errors. -/
theorem escape_sequence_error_eof (s : List Char) (e : RError)
    (h : escape_sequence s = .error e) : e = .eof := by
  unfold escape_sequence at h
  repeat' split at h
  all_goals simp_all only [next_char_eq_error, next_char_eq_ok, Except.ok.injEq,
    Except.error.injEq, Prod.mk.injEq, reduceCtorEq]

/-- Bit-level reading of masking with a complemented 32-bit mask. -/
lemma testBit_land_not (x m i : Nat) (h : i < 32) :
    (x &&& tcflag_not m).testBit i = (x.testBit i && !m.testBit i) := by
  rw [show x &&& tcflag_not m = x &&& ((2 ^ 32 - 1) ^^^ m) from rfl,
    Nat.testBit_and, Nat.testBit_xor, Nat.testBit_two_pow_sub_one]
  simp [h]

/-- Whatever `stdin_raw_read` returns, it is never the interrupted error. -/
lemma stdin_no_interrupted :
    ∀ (outs : List ReadOutcome) (res : Except IOErrorKind Nat),
      stdin_raw_read outs = some res → res ≠ .error .interrupted := by
  intro outs
  induction outs with
  | nil => intro res h; simp [stdin_raw_read] at h
  | cons o rest ih =>
    intro res h
    cases o with
    | ok n =>
      simp [stdin_raw_read] at h
      simp [← h]
    | err e =>
      by_cases he : e = .interrupted
      · rw [he] at h
        simp [stdin_raw_read] at h
        exact ih res h
      · simp [stdin_raw_read, he] at h
        simp [← h, he]

/-- A run of interrupted outcomes is skipped by the retry loop. -/
lemma stdin_skips_interrupts (k : Nat) (tail : List ReadOutcome) :
    stdin_raw_read (List.replicate k (.err .interrupted) ++ tail) = stdin_raw_read tail := by
  induction k with
  | zero => rfl
  | succ j ih => simp [List.replicate, stdin_raw_read, ih]

/-- Polling repeatedly from a cleared flag keeps returning `false`. -/
lemma poll_seq_false (n : Nat) : poll_seq n false = (List.replicate n false, false) := by
  induction n with
  | zero => rfl
  | succ k ih => simp [poll_seq, sigwinch, ih, List.replicate]

/-! Claim theorems. -/

/-- C1: when the first decoded codepoint is the escape byte 0x1B, `next_key`
consults the readiness poll at the caller-supplied `timeout_ms`; a poll
reporting zero ready descriptors yields exactly one Escape key event with no
further codepoint consumed, a poll reporting readiness hands the rest of the
stream to sequence resolution, and a poll error is propagated. -/
theorem C1_esc_disambiguation (timeout_ms : Int) (poll : Int → PollRes) (rest : List Char) :
    (poll timeout_ms = PollRes.ok 0 →
      next_key timeout_ms poll (escChar :: rest) = .ok (key .Esc, rest)) ∧
    (∀ n : Nat, poll timeout_ms = PollRes.ok (n + 1) →
      next_key timeout_ms poll (escChar :: rest) = escape_sequence rest) ∧
    (∀ e : Nat, poll timeout_ms = PollRes.err e →
      next_key timeout_ms poll (escChar :: rest) = .error (.os e)) := by
  refine ⟨fun h => ?_, fun n h => ?_, fun e h => ?_⟩ <;>
    simp [next_key, next_char, char_to_key_press, escChar, h]

theorem C1_esc_disambiguation_witness :
    next_key 50 (fun _ => PollRes.ok 0) (escChar :: []) = .ok (key .Esc, []) ∧
    next_key 50 (fun _ => PollRes.ok 1) (escChar :: ['[', 'A']) = escape_sequence ['[', 'A'] ∧
    next_key 50 (fun _ => PollRes.err 4) (escChar :: []) = .error (.os 4) :=
  ⟨(C1_esc_disambiguation 50 (fun _ => PollRes.ok 0) []).1 rfl,
   (C1_esc_disambiguation 50 (fun _ => PollRes.ok 1) ['[', 'A']).2.1 0 rfl,
   (C1_esc_disambiguation 50 (fun _ => PollRes.err 4) []).2.2 4 rfl⟩

/-- C2: the recognised escape families decode to the key events of the spec's
table: `[` with tail `A`/`B`/`C`/`D`/`F`/`H` gives Up/Down/Right/Left/End/Home
unmodified; `[1;3` with those tails gives the alt-modified key, `[1;5` the
ctrl-modified key; `[1~`/`[7~` give Home, `[3~` Delete, `[4~`/`[8~` End,
`[5~` PageUp, `[6~` PageDown; and `O` with those tails gives
Up/Down/Right/Left/End/Home. -/
theorem C2_escape_table (rest : List Char) :
    escape_sequence ('[' :: 'A' :: rest) = .ok (key .Up, rest) ∧
    escape_sequence ('[' :: 'B' :: rest) = .ok (key .Down, rest) ∧
    escape_sequence ('[' :: 'C' :: rest) = .ok (key .Right, rest) ∧
    escape_sequence ('[' :: 'D' :: rest) = .ok (key .Left, rest) ∧
    escape_sequence ('[' :: 'F' :: rest) = .ok (key .End, rest) ∧
    escape_sequence ('[' :: 'H' :: rest) = .ok (key .Home, rest) ∧
    escape_sequence ('[' :: '1' :: ';' :: '3' :: 'A' :: rest) = .ok (alt .Up, rest) ∧
    escape_sequence ('[' :: '1' :: ';' :: '3' :: 'B' :: rest) = .ok (alt .Down, rest) ∧
    escape_sequence ('[' :: '1' :: ';' :: '3' :: 'C' :: rest) = .ok (alt .Right, rest) ∧
    escape_sequence ('[' :: '1' :: ';' :: '3' :: 'D' :: rest) = .ok (alt .Left, rest) ∧
    escape_sequence ('[' :: '1' :: ';' :: '3' :: 'F' :: rest) = .ok (alt .End, rest) ∧
    escape_sequence ('[' :: '1' :: ';' :: '3' :: 'H' :: rest) = .ok (alt .Home, rest) ∧
    escape_sequence ('[' :: '1' :: ';' :: '5' :: 'A' :: rest) = .ok (ctrl .Up, rest) ∧
    escape_sequence ('[' :: '1' :: ';' :: '5' :: 'B' :: rest) = .ok (ctrl .Down, rest) ∧
    escape_sequence ('[' :: '1' :: ';' :: '5' :: 'C' :: rest) = .ok (ctrl .Right, rest) ∧
    escape_sequence ('[' :: '1' :: ';' :: '5' :: 'D' :: rest) = .ok (ctrl .Left, rest) ∧
    escape_sequence ('[' :: '1' :: ';' :: '5' :: 'F' :: rest) = .ok (ctrl .End, rest) ∧
    escape_sequence ('[' :: '1' :: ';' :: '5' :: 'H' :: rest) = .ok (ctrl .Home, rest) ∧
    escape_sequence ('[' :: '1' :: '~' :: rest) = .ok (key .Home, rest) ∧
    escape_sequence ('[' :: '7' :: '~' :: rest) = .ok (key .Home, rest) ∧
    escape_sequence ('[' :: '3' :: '~' :: rest) = .ok (key .Delete, rest) ∧
    escape_sequence ('[' :: '4' :: '~' :: rest) = .ok (key .End, rest) ∧
    escape_sequence ('[' :: '8' :: '~' :: rest) = .ok (key .End, rest) ∧
    escape_sequence ('[' :: '5' :: '~' :: rest) = .ok (key .PageUp, rest) ∧
    escape_sequence ('[' :: '6' :: '~' :: rest) = .ok (key .PageDown, rest) ∧
    escape_sequence ('O' :: 'A' :: rest) = .ok (key .Up, rest) ∧
    escape_sequence ('O' :: 'B' :: rest) = .ok (key .Down, rest) ∧
    escape_sequence ('O' :: 'C' :: rest) = .ok (key .Right, rest) ∧
    escape_sequence ('O' :: 'D' :: rest) = .ok (key .Left, rest) ∧
    escape_sequence ('O' :: 'F' :: rest) = .ok (key .End, rest) ∧
    escape_sequence ('O' :: 'H' :: rest) = .ok (key .Home, rest) :=
  ⟨rfl, rfl, rfl, rfl, rfl, rfl, rfl, rfl, rfl, rfl, rfl, rfl, rfl, rfl, rfl, rfl,
   rfl, rfl, rfl, rfl, rfl, rfl, rfl, rfl, rfl, rfl, rfl, rfl, rfl, rfl, rfl⟩

/-- C3: an unmatched continuation resolves to Unknown rather than failing
(every `escape_sequence` error is end-of-stream, never a malformed-sequence
error), already-consumed codepoints are never replayed (the remainder returned
is an untouched suffix of the input), and on `ESC [ 9 9` the decoder returns
Unknown after consuming only `[ 9`, then decodes the remaining `9` on the next
call. -/
theorem C3_unknown_degrades_gracefully :
    (∀ (s : List Char) (r : KeyPress) (s' : List Char),
      escape_sequence s = .ok (r, s') → ∃ pre : List Char, s = pre ++ s') ∧
    (∀ (s : List Char) (e : RError), escape_sequence s = .error e → e = .eof) ∧
    (∀ (timeout_ms : Int) (poll : Int → PollRes) (rest : List Char),
      poll timeout_ms = PollRes.ok 1 →
      next_key timeout_ms poll (escChar :: '[' :: '9' :: '9' :: rest) =
        .ok (key .Unknown, '9' :: rest) ∧
      next_key timeout_ms poll ('9' :: rest) = .ok (key (.Char '9'), rest)) := by
  refine ⟨fun s r s' h => ?_, escape_sequence_error_eof, fun timeout_ms poll rest h => ⟨?_, ?_⟩⟩
  · obtain ⟨pre, h1, _⟩ := escape_sequence_consumes s r s' h
    exact ⟨pre, h1⟩
  · simp [next_key, next_char, char_to_key_press, escChar, h]
    rfl
  · simp [next_key, next_char, char_to_key_press]
    rfl

theorem C3_unknown_degrades_gracefully_witness :
    (∃ pre : List Char, ['[', '9', '9'] = pre ++ ['9']) ∧
    RError.eof = RError.eof ∧
    next_key 50 (fun _ => PollRes.ok 1) (escChar :: ['[', '9', '9']) =
      .ok (key .Unknown, ['9']) :=
  ⟨C3_unknown_degrades_gracefully.1 ['[', '9', '9'] (key .Unknown) ['9'] rfl,
   C3_unknown_degrades_gracefully.2.1 [] .eof rfl,
   (C3_unknown_degrades_gracefully.2.2 50 (fun _ => PollRes.ok 1) [] rfl).1⟩

/-- C4 counterexample: sequence resolution does not always stop within four
codepoints — on `[ 1 ; 3 A` it consumes five codepoints after the escape byte
before producing Alt+Up. -/
theorem C4_counterexample :
    ¬ ∀ (s : List Char) (r : KeyPress) (s' : List Char),
        escape_sequence s = .ok (r, s') → s.length ≤ s'.length + 4 := by
  intro hall
  have h5 := hall ['[', '1', ';', '3', 'A'] (alt .Up) [] rfl
  simp at h5

/-- C4 (amended): for every input stream, sequence resolution after the escape
byte examines and consumes at most the next five codepoints before producing
its key event, leaving the rest of the stream untouched. -/
theorem C4_consumes_at_most_five (s : List Char) (r : KeyPress) (s' : List Char)
    (h : escape_sequence s = .ok (r, s')) :
    ∃ pre : List Char, s = pre ++ s' ∧ pre.length ≤ 5 :=
  escape_sequence_consumes s r s' h

theorem C4_consumes_at_most_five_witness :
    ∃ pre : List Char, ['[', '1', ';', '3', 'A'] = pre ++ ([] : List Char) ∧ pre.length ≤ 5 :=
  C4_consumes_at_most_five ['[', '1', ';', '3', 'A'] (alt .Up) [] rfl

/-- C5: requesting raw mode with a non-interactive stdin returns the
NotATerminal error (errno `ENOTTY`), issues no attribute get or set syscall,
and leaves the device's attributes unchanged. -/
theorem C5_not_a_terminal (dev : Termios) :
    enable_raw_mode false dev = (.error (.os ENOTTY), dev, []) := rfl

/-- C6: with an interactive stdin, `enable_raw_mode` returns the pre-change
snapshot and issues exactly a get followed by a `TCSADRAIN` set of the derived
attributes, which clear exactly the BRKINT/ICRNL/INPCK/ISTRIP/IXON bits of the
input flags, set exactly the CS8 bits of the control flags, clear exactly the
ECHO/ICANON/IEXTEN/ISIG bits of the local flags, and set `VMIN` to 1 and
`VTIME` to 0; `disable_raw_mode` re-applies the given snapshot with the same
`TCSADRAIN` option. -/
theorem C6_raw_mode_derivation (dev : Termios) :
    (enable_raw_mode true dev).1 = .ok dev ∧
    (enable_raw_mode true dev).2.2 =
      [Syscall.tcgetattr, Syscall.tcsetattr .TCSADRAIN (enable_raw_mode true dev).2.1] ∧
    (∀ i : Nat, i < 32 →
      (enable_raw_mode true dev).2.1.c_iflag.testBit i =
        (dev.c_iflag.testBit i &&
          !((BRKINT ||| ICRNL ||| INPCK ||| ISTRIP ||| IXON).testBit i))) ∧
    (∀ i : Nat,
      (enable_raw_mode true dev).2.1.c_cflag.testBit i =
        (dev.c_cflag.testBit i || CS8.testBit i)) ∧
    (∀ i : Nat, i < 32 →
      (enable_raw_mode true dev).2.1.c_lflag.testBit i =
        (dev.c_lflag.testBit i &&
          !((ECHO ||| ICANON ||| IEXTEN ||| ISIG).testBit i))) ∧
    (enable_raw_mode true dev).2.1.c_cc VMIN = 1 ∧
    (enable_raw_mode true dev).2.1.c_cc VTIME = 0 ∧
    (∀ m d : Termios, disable_raw_mode m d = (.ok (), m, [Syscall.tcsetattr .TCSADRAIN m])) :=
  ⟨rfl, rfl, fun i hi => testBit_land_not _ _ i hi, fun i => Nat.testBit_or _ _ _,
   fun i hi => testBit_land_not _ _ i hi, rfl, rfl, fun m d => rfl⟩

theorem C6_raw_mode_derivation_witness :
    (enable_raw_mode true ⟨1330, 3, 0, 32779, fun _ => 7⟩).2.1.c_iflag.testBit 1 =
      ((1330 : Nat).testBit 1 &&
        !((BRKINT ||| ICRNL ||| INPCK ||| ISTRIP ||| IXON).testBit 1)) ∧
    (enable_raw_mode true ⟨1330, 3, 0, 32779, fun _ => 7⟩).2.1.c_lflag.testBit 0 =
      ((32779 : Nat).testBit 0 && !((ECHO ||| ICANON ||| IEXTEN ||| ISIG).testBit 0)) :=
  ⟨(C6_raw_mode_derivation ⟨1330, 3, 0, 32779, fun _ => 7⟩).2.2.1 1 (by norm_num),
   (C6_raw_mode_derivation ⟨1330, 3, 0, 32779, fun _ => 7⟩).2.2.2.2.1 0 (by norm_num)⟩

/-- C7: the byte source never surfaces a transient interruption (it retries),
surfaces every other read failure as an OS error, and surfaces a zero-length
successful read — an exhausted stream — as Eof. -/
theorem C7_read_retry_policy :
    (∀ (outs : List ReadOutcome) (res : Except IOErrorKind Nat),
      stdin_raw_read outs = some res → res ≠ .error .interrupted) ∧
    (∀ (k : Nat) (e : IOErrorKind) (rest : List ReadOutcome), e ≠ .interrupted →
      stdin_raw_read (List.replicate k (.err .interrupted) ++ .err e :: rest) =
        some (.error e)) ∧
    (∀ (k n : Nat) (rest : List ReadOutcome),
      stdin_raw_read (List.replicate k (.err .interrupted) ++ .ok n :: rest) =
        some (.ok n)) ∧
    next_char [] = .error .eof := by
  refine ⟨stdin_no_interrupted, fun k e rest he => ?_, fun k n rest => ?_, rfl⟩
  · rw [stdin_skips_interrupts]
    simp [stdin_raw_read, he]
  · rw [stdin_skips_interrupts]
    simp [stdin_raw_read]

theorem C7_read_retry_policy_witness :
    (Except.error (IOErrorKind.other 5) : Except IOErrorKind Nat) ≠ .error .interrupted ∧
    stdin_raw_read (List.replicate 1 (.err .interrupted) ++ .err (.other 5) :: []) =
      some (.error (.other 5)) :=
  ⟨C7_read_retry_policy.1 [.err (.other 5)] (.error (.other 5)) rfl,
   C7_read_retry_policy.2.1 1 (.other 5) [] (by decide)⟩

/-- C8 counterexample: with `TERM=xterm`, stdin a tty but stdout not a tty,
facade construction does not install the resize handler even though the
terminal is interactive and not deny-listed — the claimed iff fails. -/
theorem C8_counterexample :
    (PosixTerminal.new (some "xterm") true false).2 = false ∧
    (PosixTerminal.new (some "xterm") true false).1.stdin_isatty = true ∧
    (PosixTerminal.new (some "xterm") true false).1.unsupported = false :=
  ⟨rfl, rfl, rfl⟩

/-- C8 (amended): facade construction installs the resize monitor if and only
if the terminal type is not on the deny-list, stdin is attached to a terminal,
and stdout is attached to a terminal. -/
theorem C8_installs_iff (term_env : Option String) (stdin_tty stdout_tty : Bool) :
    ((PosixTerminal.new term_env stdin_tty stdout_tty).2 = true) ↔
      (is_unsupported_term term_env = false ∧ stdin_tty = true ∧ stdout_tty = true) := by
  simp [PosixTerminal.new, and_assoc]

/-- C9: polling exchanges the flag with false and returns its prior value;
after one window-change notification and no further ones, a run of `n + 1`
polls returns true on exactly the first and false on every subsequent poll,
ending with the flag false; polling a false flag returns false and leaves it
false. -/
theorem C9_resize_poll (n : Nat) (b : Bool) :
    (∀ c : Bool, sigwinch c = (c, false)) ∧
    poll_seq (n + 1) (sigwinch_handler b) = (true :: List.replicate n false, false) ∧
    sigwinch false = (false, false) := by
  refine ⟨fun c => by cases c <;> rfl, ?_, rfl⟩
  simp [poll_seq, sigwinch_handler, sigwinch, poll_seq_false]

/-- C10: `enable_raw_mode` leaves the output-flag group untouched and keeps
every control character other than the `VMIN` and `VTIME` entries at its
captured value. -/
theorem C10_untouched_fields (dev : Termios) :
    (enable_raw_mode true dev).2.1.c_oflag = dev.c_oflag ∧
    ∀ i : Nat, i ≠ VMIN → i ≠ VTIME → (enable_raw_mode true dev).2.1.c_cc i = dev.c_cc i := by
  refine ⟨rfl, fun i h1 h2 => ?_⟩
  show Function.update (Function.update dev.c_cc VMIN 1) VTIME 0 i = dev.c_cc i
  rw [Function.update_noteq h2, Function.update_noteq h1]

theorem C10_untouched_fields_witness :
    (enable_raw_mode true ⟨1330, 3, 0, 32779, fun _ => 7⟩).2.1.c_cc 0 = 7 :=
  (C10_untouched_fields ⟨1330, 3, 0, 32779, fun _ => 7⟩).2 0 (by decide) (by decide)

end Rustyline
